import Mathlib

/-!
Verification of the yt-brain frontend logic.

The definitions below are shallow embeddings of the handler functions of the
React components: `handleMCQSelect`, `handleOpenSubmit` and `handleNext` from
GameView.jsx, `handleSend` (with its history construction) from the chat
interface, `fetchSummary` from SummaryView.jsx, and the two `formatTime`
helpers.  React state is modelled as an explicit state record and each handler
as a pure state-transition function; the asynchronous server call inside a
handler is modelled by passing the call's outcome (`Except`) as an argument,
together with a flag recording whether the call was performed at all.
-/

namespace YTBrain

/-- JavaScript's `String.prototype.trim`: the string with leading and trailing
whitespace removed, defined by structural recursion on the character list so
that it evaluates by kernel reduction. -/
def jsTrim (s : String) : String :=
  String.mk (((s.data.dropWhile Char.isWhitespace).reverse.dropWhile
    Char.isWhitespace).reverse)

/-- First character of a string, uppercased, returned as a string; the empty
string maps to the empty string.  Mirrors the JavaScript idiom
`s.charAt(0).toUpperCase()` used in GameView.jsx (charAt of an empty string is
the empty string, whose toUpperCase is itself). -/
def upperFirst (s : String) : String :=
  match s.data with
  | [] => ""
  | c :: _ => String.singleton c.toUpper

/-- A quiz question as held client-side (GameView.jsx).  The `correct` field is
optional because the code reads it with optional chaining
(`currentQuestion.correct?.charAt(0)`). -/
structure Question where
  qtype : String
  question : String
  options : List String
  correct : Option String
  difficulty : String
  explanation : String
  deriving DecidableEq

/-- The grading payload returned by the `/game/grade` call.  `xp_earned` is
optional because the code reads it as `result.xp_earned || 0`. -/
structure GradeResult where
  score : Int
  feedback : String
  xp_earned : Option Int
  deriving DecidableEq

/-- The React state of the GameView component that the handlers read and
write. -/
structure GameState where
  questions : List Question
  currentQ : Nat
  selectedAnswer : Option String
  showResult : Bool
  isCorrect : Bool
  openAnswer : String
  grading : Bool
  gradeFeedback : Option GradeResult
  score : Nat
  xp : Int
  gameComplete : Bool
  deriving DecidableEq

/-- The MCQ correctness judgment of `handleMCQSelect`:
`currentQuestion.correct?.charAt(0)?.toUpperCase() === option.charAt(0).toUpperCase()`.
A missing `correct` field yields `undefined === letter`, which is false in
JavaScript. -/
def judgeMCQ (q : Question) (option : String) : Bool :=
  match q.correct with
  | none => false
  | some c => upperFirst c == upperFirst option

/-- The MCQ points formula of `handleMCQSelect`:
`currentQuestion.difficulty === 'easy' ? 10 : 20`. -/
def mcqPoints (difficulty : String) : Nat :=
  if difficulty = "easy" then 10 else 20

/-- `handleMCQSelect` from GameView.jsx as a state-transition function.  The
early return on `showResult` models line 43; the component only renders option
buttons when a current question exists, so the out-of-bounds branch returns the
state unchanged. -/
def handleMCQSelect (st : GameState) (option : String) : GameState :=
  if st.showResult then st
  else
    match st.questions[st.currentQ]? with
    | none => st
    | some q =>
      let correct := judgeMCQ q option
      let base := { st with selectedAnswer := some option,
                            isCorrect := correct,
                            showResult := true }
      if correct then
        { base with score := base.score + 1,
                    xp := base.xp + (mcqPoints q.difficulty : Int) }
      else base

/-- The fallback grading payload that `handleOpenSubmit` installs in its catch
branch. -/
def gradeErrorFeedback : GradeResult :=
  { score := 0, feedback := "Error grading answer.", xp_earned := some 0 }

/-- `handleOpenSubmit` from GameView.jsx.  The `outcome` argument is the result
of the `gradeAnswer` network call; the returned flag records whether that call
was performed.  The guard models `if (!openAnswer.trim() || grading) return;`
and the two branches model the try/catch bodies (the `finally` resets
`grading`). -/
def handleOpenSubmit (st : GameState) (outcome : Except String GradeResult) :
    GameState × Bool :=
  if jsTrim st.openAnswer = "" ∨ st.grading then (st, false)
  else
    match outcome with
    | Except.ok result =>
        ({ st with gradeFeedback := some result,
                   showResult := true,
                   xp := st.xp + result.xp_earned.getD 0,
                   score := if result.score ≥ 2 then st.score + 1 else st.score,
                   grading := false }, true)
    | Except.error _ =>
        ({ st with gradeFeedback := some gradeErrorFeedback,
                   showResult := true,
                   grading := false }, true)

/-- `handleNext` from GameView.jsx: on the last question it sets
`gameComplete`; otherwise it advances `currentQ` and resets the per-question
fields. -/
def handleNext (st : GameState) : GameState :=
  if st.questions.length ≤ st.currentQ + 1 then
    { st with gameComplete := true }
  else
    { st with currentQ := st.currentQ + 1,
              selectedAnswer := none,
              showResult := false,
              isCorrect := false,
              openAnswer := "",
              gradeFeedback := none }

/-- Sample MCQ question used to instantiate the theorems below. -/
def sampleMCQ : Question :=
  { qtype := "mcq", question := "Capital of France?",
    options := ["A. Paris", "B. Rome"], correct := some "A",
    difficulty := "easy", explanation := "Paris is the capital." }

/-- Sample fresh game state holding `sampleMCQ`. -/
def sampleGame : GameState :=
  { questions := [sampleMCQ], currentQ := 0, selectedAnswer := none,
    showResult := false, isCorrect := false, openAnswer := "",
    grading := false, gradeFeedback := none, score := 0, xp := 0,
    gameComplete := false }

/-- Sample hard MCQ question. -/
def hardMCQ : Question :=
  { qtype := "mcq", question := "Year of the treaty?",
    options := ["A. 1648", "B. 1748"], correct := some "A",
    difficulty := "hard", explanation := "" }

/-- Sample fresh game state holding `hardMCQ`. -/
def hardGame : GameState :=
  { sampleGame with questions := [hardMCQ] }

/-- Sample game state whose open answer is whitespace-only. -/
def blankOpenGame : GameState :=
  { sampleGame with openAnswer := "   " }

/-- Sample game state whose result is already shown. -/
def shownGame : GameState :=
  { sampleGame with showResult := true, selectedAnswer := some "A. Paris",
                    isCorrect := true, score := 1, xp := 10 }

/-- Claim C1: with no result yet shown and a present `correct` field, an MCQ
selection is judged correct exactly when the uppercased first character of the
selected option equals the uppercased first character of the question's
`correct` field. -/
theorem mcq_judged_by_leading_letter (st : GameState) (q : Question)
    (c opt : String)
    (hres : st.showResult = false)
    (hq : st.questions[st.currentQ]? = some q)
    (hc : q.correct = some c) :
    (handleMCQSelect st opt).isCorrect = true ↔ upperFirst opt = upperFirst c := by
  simp only [handleMCQSelect, hres, Bool.false_eq_true, if_false, hq,
    judgeMCQ, hc]
  by_cases h : upperFirst c = upperFirst opt
  · simp [h, eq_comm]
  · have hb : (upperFirst c == upperFirst opt) = false := by
      simpa using h
    simp [hb]
    exact fun hcon => absurd hcon.symm h

/-- Witness for C1 at a concrete state and option. -/
theorem mcq_judged_by_leading_letter_witness :
    (handleMCQSelect sampleGame "A. Paris").isCorrect = true ↔
      upperFirst "A. Paris" = upperFirst "A" :=
  mcq_judged_by_leading_letter sampleGame sampleMCQ "A" "A. Paris" rfl rfl rfl

/-- Claim C3: a correctly answered MCQ awards exactly 10 XP when the question's
difficulty is "easy" and exactly 20 XP otherwise, and increments the correct
count by one; an incorrectly answered MCQ awards 0 XP and leaves the correct
count unchanged. -/
theorem mcq_xp_award (st : GameState) (q : Question) (opt : String)
    (hres : st.showResult = false)
    (hq : st.questions[st.currentQ]? = some q) :
    (judgeMCQ q opt = true →
      (handleMCQSelect st opt).xp =
        st.xp + (if q.difficulty = "easy" then 10 else 20) ∧
      (handleMCQSelect st opt).score = st.score + 1) ∧
    (judgeMCQ q opt = false →
      (handleMCQSelect st opt).xp = st.xp ∧
      (handleMCQSelect st opt).score = st.score) := by
  constructor
  · intro hj
    simp [handleMCQSelect, hres, hq, hj, mcqPoints]
  · intro hj
    simp [handleMCQSelect, hres, hq, hj]

/-- Witness for C3 at a concrete state: the sample easy question answered
correctly awards 10 XP and one correct-count point. -/
theorem mcq_xp_award_witness :
    (handleMCQSelect sampleGame "A. Paris").xp =
      sampleGame.xp + (if sampleMCQ.difficulty = "easy" then 10 else 20) ∧
    (handleMCQSelect sampleGame "A. Paris").score = sampleGame.score + 1 :=
  (mcq_xp_award sampleGame sampleMCQ "A. Paris" rfl rfl).1 rfl

/-- Claim C6: at equal (correct) outcome, the XP gained for a correct answer to
a "hard" question is at least the XP gained for a correct answer to an "easy"
question. -/
theorem xp_monotone_in_difficulty (st₁ st₂ : GameState) (q₁ q₂ : Question)
    (o₁ o₂ : String)
    (hres₁ : st₁.showResult = false)
    (hq₁ : st₁.questions[st₁.currentQ]? = some q₁)
    (hj₁ : judgeMCQ q₁ o₁ = true)
    (hd₁ : q₁.difficulty = "hard")
    (hres₂ : st₂.showResult = false)
    (hq₂ : st₂.questions[st₂.currentQ]? = some q₂)
    (hj₂ : judgeMCQ q₂ o₂ = true)
    (hd₂ : q₂.difficulty = "easy") :
    (handleMCQSelect st₂ o₂).xp - st₂.xp ≤ (handleMCQSelect st₁ o₁).xp - st₁.xp := by
  have h₁ := ((mcq_xp_award st₁ q₁ o₁ hres₁ hq₁).1 hj₁).1
  have h₂ := ((mcq_xp_award st₂ q₂ o₂ hres₂ hq₂).1 hj₂).1
  rw [h₁, h₂, hd₁, hd₂, if_pos rfl, if_neg (by decide)]
  omega

/-- Witness for C6: a hard question's correct answer gains at least as much XP
as an easy question's. -/
theorem xp_monotone_in_difficulty_witness :
    (handleMCQSelect sampleGame "A. Paris").xp - sampleGame.xp ≤
      (handleMCQSelect hardGame "A. Paris").xp - hardGame.xp :=
  xp_monotone_in_difficulty hardGame sampleGame hardMCQ sampleMCQ
    "A. Paris" "A. Paris" rfl rfl rfl rfl rfl rfl rfl rfl

/-- Claim C7: an empty or whitespace-only open answer makes `handleOpenSubmit`
return immediately: the grading call is not performed (flag `false`) and the
state, score, XP and feedback are all unchanged. -/
theorem blank_answer_skips_grading (st : GameState)
    (outcome : Except String GradeResult)
    (h : jsTrim st.openAnswer = "") :
    handleOpenSubmit st outcome = (st, false) := by
  simp [handleOpenSubmit, h]

/-- Witness for C7 at a whitespace-only answer. -/
theorem blank_answer_skips_grading_witness :
    handleOpenSubmit blankOpenGame
        (Except.ok { score := 3, feedback := "great", xp_earned := some 20 }) =
      (blankOpenGame, false) :=
  blank_answer_skips_grading blankOpenGame _ (by rfl)

/-- Claim C8: once the result for the current question is shown, selecting any
further MCQ option leaves the entire state unchanged. -/
theorem select_after_result_noop (st : GameState) (opt : String)
    (h : st.showResult = true) :
    handleMCQSelect st opt = st := by
  simp [handleMCQSelect, h]

/-- Witness for C8 at a state whose result is already shown. -/
theorem select_after_result_noop_witness :
    handleMCQSelect shownGame "B. Rome" = shownGame :=
  select_after_result_noop shownGame "B. Rome" rfl

/-- Claim C9: when the current question is the last one, `handleNext` sets only
`gameComplete`; otherwise it advances `currentQ` and resets exactly the
per-question fields (selectedAnswer, showResult, isCorrect, openAnswer,
gradeFeedback) while score, xp, grading, gameComplete and the question list are
unchanged. -/
theorem next_question_frame (st : GameState) :
    (st.questions.length ≤ st.currentQ + 1 →
      handleNext st = { st with gameComplete := true }) ∧
    (st.currentQ + 1 < st.questions.length →
      (handleNext st).currentQ = st.currentQ + 1 ∧
      (handleNext st).selectedAnswer = none ∧
      (handleNext st).showResult = false ∧
      (handleNext st).isCorrect = false ∧
      (handleNext st).openAnswer = "" ∧
      (handleNext st).gradeFeedback = none ∧
      (handleNext st).score = st.score ∧
      (handleNext st).xp = st.xp ∧
      (handleNext st).grading = st.grading ∧
      (handleNext st).gameComplete = st.gameComplete ∧
      (handleNext st).questions = st.questions) := by
  constructor
  · intro h
    simp [handleNext, h]
  · intro h
    have h' : ¬ st.questions.length ≤ st.currentQ + 1 := by omega
    simp [handleNext, h']

/-- Witness for C9: on the single-question sample state the current question is
the last one, so `handleNext` only sets `gameComplete`. -/
theorem next_question_frame_witness :
    handleNext sampleGame = { sampleGame with gameComplete := true } :=
  (next_question_frame sampleGame).1 (by decide)

/-- A cited retrieval source as rendered by the chat interface
(`{text, start_time}`); `start_time` is read with a `|| 0` fallback, hence
optional. -/
structure Source where
  text : String
  start_time : Option ℚ
  deriving DecidableEq

/-- A chat message held in the component's `messages` state. -/
structure ChatMsg where
  role : String
  content : String
  sources : Option (List Source)
  deriving DecidableEq

/-- A history entry as sent to the server: exactly the role and content
fields. -/
structure HistoryEntry where
  role : String
  content : String
  deriving DecidableEq

/-- The payload of a `sendChat` request as built by `handleSend`. -/
structure ChatRequest where
  message : String
  history : List HistoryEntry
  deriving DecidableEq

/-- The response of the `/chat` endpoint. -/
structure ChatResponse where
  answer : String
  sources : Option (List Source)
  deriving DecidableEq

/-- The React state of the chat interface that `handleSend` reads and
writes. -/
structure ChatState where
  messages : List ChatMsg
  input : String
  loading : Bool
  currentSources : List Source
  deriving DecidableEq

/-- Projection of a chat message to its role and content fields, as in
`messages.slice(-6).map(m => ({role: m.role, content: m.content}))`. -/
def toHistoryEntry (m : ChatMsg) : HistoryEntry :=
  { role := m.role, content := m.content }

/-- The history construction of `handleSend`:
`messages.slice(-6).map(m => ({role: m.role, content: m.content}))`.
JavaScript's `slice(-6)` is the last six elements (the whole list when it is
shorter), i.e. `drop (length - 6)`. -/
def buildHistory (messages : List ChatMsg) : List HistoryEntry :=
  (messages.drop (messages.length - 6)).map toHistoryEntry

/-- The user message appended by `handleSend`. -/
def mkUserMsg (input : String) : ChatMsg :=
  { role := "user", content := input, sources := none }

/-- The assistant message appended by `handleSend` in its catch branch. -/
def chatErrorReply : ChatMsg :=
  { role := "assistant",
    content := "Sorry, I encountered an error. Please try again.",
    sources := none }

/-- `handleSend` from the chat interface as a state-transition function.  The
`outcome` argument is the result of the `sendChat` network call; the second
component is the request sent (or `none` when the guard returned early).  The
history is computed from `messages` as captured before the new user message is
appended, exactly as in the source (the closure reads the pre-update state). -/
def handleSend (st : ChatState) (outcome : Except String ChatResponse) :
    ChatState × Option ChatRequest :=
  if jsTrim st.input = "" ∨ st.loading then (st, none)
  else
    let req : ChatRequest := { message := st.input, history := buildHistory st.messages }
    match outcome with
    | Except.ok resp =>
        ({ messages := st.messages ++ [mkUserMsg st.input,
             { role := "assistant", content := resp.answer, sources := resp.sources }],
           input := "",
           loading := false,
           currentSources := resp.sources.getD [] }, some req)
    | Except.error _ =>
        ({ messages := st.messages ++ [mkUserMsg st.input, chatErrorReply],
           input := "",
           loading := false,
           currentSources := [] }, some req)

/-- Claim C2: when a send goes through, the request carries the caller-held
input and a history computed purely from the caller-held message list: it is
the image of the last at-most-six prior messages under the role/content
projection — a suffix of the projected list, so older messages are dropped and
never merged. -/
theorem chat_history_cap (st : ChatState) (outcome : Except String ChatResponse)
    (hin : jsTrim st.input ≠ "") (hld : st.loading = false) :
    (handleSend st outcome).2 =
      some { message := st.input, history := buildHistory st.messages } ∧
    buildHistory st.messages =
      (st.messages.map toHistoryEntry).drop (st.messages.length - 6) ∧
    (buildHistory st.messages).length = min st.messages.length 6 ∧
    buildHistory st.messages <:+ st.messages.map toHistoryEntry := by
  refine ⟨?_, ?_, ?_, ?_⟩
  · simp only [handleSend, hin, hld, if_neg, or_self]
    cases outcome <;> simp
  · simp [buildHistory, List.map_drop]
  · simp only [buildHistory, List.length_map, List.length_drop]
    omega
  · rw [buildHistory, List.map_drop]
    exact List.drop_suffix _ _

/-- Sample chat state with eight prior messages, to exercise the cap. -/
def sampleChat : ChatState :=
  { messages :=
      [{ role := "assistant", content := "greeting", sources := none },
       { role := "user", content := "q1", sources := none },
       { role := "assistant", content := "a1", sources := none },
       { role := "user", content := "q2", sources := none },
       { role := "assistant", content := "a2", sources := none },
       { role := "user", content := "q3", sources := none },
       { role := "assistant", content := "a3", sources := none },
       { role := "user", content := "q4", sources := none }],
    input := "What is discussed at 2:05?",
    loading := false,
    currentSources := [] }

/-- Witness for C2 at the eight-message sample state. -/
theorem chat_history_cap_witness :
    (handleSend sampleChat (Except.ok { answer := "The treaty.", sources := some [] })).2 =
      some { message := sampleChat.input, history := buildHistory sampleChat.messages } ∧
    buildHistory sampleChat.messages =
      (sampleChat.messages.map toHistoryEntry).drop (sampleChat.messages.length - 6) ∧
    (buildHistory sampleChat.messages).length = min sampleChat.messages.length 6 ∧
    buildHistory sampleChat.messages <:+ sampleChat.messages.map toHistoryEntry :=
  chat_history_cap sampleChat _ (by decide) rfl

/-- Sample game state with a non-blank open answer, ready for grading. -/
def openAnswerGame : GameState :=
  { sampleGame with openAnswer := "It encodes the transcript." }

/-- Counterexample to claim C4: a failed grading call produces exactly the same
state as a successful grading call returning the default payload
(score 0, feedback "Error grading answer.", xp_earned 0) — the failure is
presented as a grading result, indistinguishable from a success. -/
theorem grading_failure_looks_like_success :
    handleOpenSubmit openAnswerGame (Except.error "Network Error") =
      handleOpenSubmit openAnswerGame (Except.ok gradeErrorFeedback) := by
  decide

/-- Claim C4 (amended): a grading-call failure is converted into the default
grading payload and shown through the normal result path, and a chat-call
failure is appended to the conversation as an ordinary assistant message with
apology text — failures carry human-readable detail but reuse the success
presentation. -/
theorem request_failure_presentation (st : GameState) (cst : ChatState)
    (e₁ e₂ : String)
    (h₁ : jsTrim st.openAnswer ≠ "") (h₂ : st.grading = false)
    (h₃ : jsTrim cst.input ≠ "") (h₄ : cst.loading = false) :
    handleOpenSubmit st (Except.error e₁) =
      ({ st with gradeFeedback := some gradeErrorFeedback,
                 showResult := true,
                 grading := false }, true) ∧
    (handleSend cst (Except.error e₂)).1.messages =
      cst.messages ++ [mkUserMsg cst.input, chatErrorReply] := by
  constructor
  · simp [handleOpenSubmit, h₁, h₂]
  · simp [handleSend, h₃, h₄]

/-- Witness for the amended C4 at concrete states. -/
theorem request_failure_presentation_witness :
    handleOpenSubmit openAnswerGame (Except.error "timeout") =
      ({ openAnswerGame with gradeFeedback := some gradeErrorFeedback,
                             showResult := true,
                             grading := false }, true) ∧
    (handleSend sampleChat (Except.error "timeout")).1.messages =
      sampleChat.messages ++ [mkUserMsg sampleChat.input, chatErrorReply] :=
  request_failure_presentation openAnswerGame sampleChat "timeout" "timeout"
    (by decide) rfl (by decide) rfl

/-- A deep concept of a summary response (name, explanation, start
timestamp). -/
structure DeepConcept where
  name : String
  explanation : String
  start_time : ℚ
  deriving DecidableEq

/-- The raw `/video/{id}/summary` response as read by `fetchSummary`; every
field is optional because the code guards each one (`data?.overview`,
`Array.isArray(...)`). A non-array value for a list field is modelled as
`none`. -/
structure SummaryResponse where
  overview : Option String
  deep_concepts : Option (List DeepConcept)
  actionable_takeaways : Option (List String)
  deriving DecidableEq

/-- The record stored in `summaryData` after the defaults are applied. -/
structure SummaryRecord where
  overview : String
  deep_concepts : List DeepConcept
  actionable_takeaways : List String
  deriving DecidableEq

/-- The React state of SummaryView written by `fetchSummary`. -/
structure SummaryState where
  summaryData : Option SummaryRecord
  loading : Bool
  error : Option String
  deriving DecidableEq

/-- The overview defaulting of `fetchSummary`:
`data?.overview || "No overview available."` — a missing or empty (falsy)
overview becomes the placeholder text. -/
def orDefaultOverview (o : Option String) : String :=
  match o with
  | none => "No overview available."
  | some s => if s = "" then "No overview available." else s

/-- The `safeSummary` record built by `fetchSummary` from the raw response. -/
def safeSummary (data : SummaryResponse) : SummaryRecord :=
  { overview := orDefaultOverview data.overview,
    deep_concepts := data.deep_concepts.getD [],
    actionable_takeaways := data.actionable_takeaways.getD [] }

/-- `fetchSummary` from SummaryView.jsx: a successful response is installed as
`summaryData` after defaulting; only a thrown request error sets the error
state. -/
def fetchSummary (outcome : Except String SummaryResponse) : SummaryState :=
  match outcome with
  | Except.ok data =>
      { summaryData := some (safeSummary data), loading := false, error := none }
  | Except.error _ =>
      { summaryData := none, loading := false,
        error := some "Failed to load summary. The video might not be fully processed yet." }

/-- Sample summary response with an empty overview and empty lists. -/
def emptySummaryResponse : SummaryResponse :=
  { overview := some "", deep_concepts := some [],
    actionable_takeaways := some [] }

/-- Counterexample to claim C5: a response whose overview is the empty string
is not treated as a generation failure — `fetchSummary` installs a successful
record (with placeholder text) and sets no error. -/
theorem empty_overview_not_a_failure :
    (fetchSummary (Except.ok
        { overview := some "", deep_concepts := some [],
          actionable_takeaways := some [] })).error = none ∧
    (fetchSummary (Except.ok
        { overview := some "", deep_concepts := some [],
          actionable_takeaways := some [] })).summaryData =
      some { overview := "No overview available.", deep_concepts := [],
             actionable_takeaways := [] } := by
  decide

/-- Claim C5 (amended): every successful summary response is presented as a
successful record with no error set; a missing or empty overview is replaced by
the placeholder "No overview available." rather than being treated as a
generation failure, so the presented overview is never empty, and empty
deep-concept or takeaway lists are preserved as valid empty lists. -/
theorem summary_empty_overview_defaulted (data : SummaryResponse) :
    (fetchSummary (Except.ok data)).error = none ∧
    (fetchSummary (Except.ok data)).summaryData = some (safeSummary data) ∧
    (safeSummary data).overview ≠ "" ∧
    ((data.overview = none ∨ data.overview = some "") →
      (safeSummary data).overview = "No overview available.") ∧
    (data.deep_concepts = some [] → (safeSummary data).deep_concepts = []) ∧
    (data.actionable_takeaways = some [] →
      (safeSummary data).actionable_takeaways = []) := by
  refine ⟨rfl, rfl, ?_, ?_, ?_, ?_⟩
  · simp only [safeSummary, orDefaultOverview]
    match h : data.overview with
    | none => decide
    | some s =>
      by_cases hs : s = "" <;> simp [hs]
  · rintro (h | h) <;> simp [safeSummary, orDefaultOverview, h]
  · intro h
    simp [safeSummary, h]
  · intro h
    simp [safeSummary, h]

/-- Witness for the amended C5 at a response with an empty overview and empty
lists. -/
theorem summary_empty_overview_defaulted_witness :
    (fetchSummary (Except.ok emptySummaryResponse)).error = none ∧
    (fetchSummary (Except.ok emptySummaryResponse)).summaryData =
      some (safeSummary emptySummaryResponse) ∧
    (safeSummary emptySummaryResponse).overview ≠ "" ∧
    (safeSummary emptySummaryResponse).overview = "No overview available." ∧
    (safeSummary emptySummaryResponse).deep_concepts = [] ∧
    (safeSummary emptySummaryResponse).actionable_takeaways = [] := by
  have h := summary_empty_overview_defaulted emptySummaryResponse
  exact ⟨h.1, h.2.1, h.2.2.1, h.2.2.2.1 (Or.inr rfl), h.2.2.2.2.1 rfl,
    h.2.2.2.2.2 rfl⟩

/-- JavaScript's `String.prototype.padStart(n, c)`: left-pad with `c` up to
length `n`. -/
def padStart (s : String) (n : Nat) (c : Char) : String :=
  String.mk (List.replicate (n - s.length) c) ++ s

/-- Truncation toward zero, the rounding used by JavaScript's `%` operator on
its quotient. -/
def jsTrunc (q : ℚ) : ℤ :=
  if 0 ≤ q then ⌊q⌋ else -⌊-q⌋

/-- JavaScript's `%` operator on numbers: `x - y * trunc(x / y)` (the result
takes the sign of the dividend). -/
def jsMod (x y : ℚ) : ℚ :=
  x - y * (jsTrunc (x / y) : ℚ)

namespace ChatInterface

/-- The `formatTime` helper of the chat interface:
minutes are `Math.floor(seconds / 60)`, seconds are
`Math.floor(seconds % 60)` zero-padded to two digits, joined by a colon. -/
def formatTime (seconds : ℚ) : String :=
  let m : ℤ := ⌊seconds / 60⌋
  let s : ℤ := ⌊jsMod seconds 60⌋
  toString m ++ ":" ++ padStart (toString s) 2 '0'

end ChatInterface

namespace SummaryView

/-- The `formatTime` helper of SummaryView.jsx, written with the same body as
the chat interface's. -/
def formatTime (seconds : ℚ) : String :=
  let m : ℤ := ⌊seconds / 60⌋
  let s : ℤ := ⌊jsMod seconds 60⌋
  toString m ++ ":" ++ padStart (toString s) 2 '0'

end SummaryView

/-- For a non-negative dividend, `jsMod ⬝ 60` lands in `[0, 60)`. -/
theorem jsMod_bounds (q : ℚ) (hq : 0 ≤ q) : 0 ≤ jsMod q 60 ∧ jsMod q 60 < 60 := by
  have hr : (0:ℚ) ≤ q / 60 := by positivity
  have h1 : ((⌊q / 60⌋ : ℤ) : ℚ) ≤ q / 60 := Int.floor_le _
  have h2 : q / 60 < (⌊q / 60⌋ : ℚ) + 1 := Int.lt_floor_add_one _
  have h3 : (60:ℚ) * (q / 60) = q := by ring
  rw [jsMod, jsTrunc, if_pos hr]
  constructor <;> nlinarith

/-- For a non-negative number of seconds, the seconds component is an integer
in `[0, 60)`. -/
theorem seconds_component_bounds (q : ℚ) (hq : 0 ≤ q) :
    0 ≤ ⌊jsMod q 60⌋ ∧ ⌊jsMod q 60⌋ < 60 := by
  obtain ⟨h1, h2⟩ := jsMod_bounds q hq
  refine ⟨Int.floor_nonneg.mpr h1, Int.floor_lt.mpr ?_⟩
  exact_mod_cast h2

/-- The decimal representation of a natural number below sixty has at most two
digits. -/
theorem natRepr_lt_sixty_length : ∀ k : ℕ, k < 60 → (Nat.repr k).length ≤ 2 := by
  decide

/-- The decimal representation of an integer in `[0, 60)` has at most two
characters. -/
theorem toString_int_lt_sixty_length (s : ℤ) (h0 : 0 ≤ s) (h60 : s < 60) :
    (toString s).length ≤ 2 := by
  obtain ⟨k, rfl⟩ := Int.eq_ofNat_of_zero_le h0
  have hk : k < 60 := by exact_mod_cast h60
  have hrepr : toString (k : ℤ) = Nat.repr k := rfl
  rw [hrepr]
  exact natRepr_lt_sixty_length k hk

/-- Padding a string of length at most two with `padStart 2` yields exactly two
characters. -/
theorem padStart_two_length (s : String) (h : s.length ≤ 2) :
    (padStart s 2 '0').length = 2 := by
  simp only [padStart, String.length_append]
  have hmk : (String.mk (List.replicate (2 - s.length) '0')).length =
      (List.replicate (2 - s.length) '0').length := rfl
  rw [hmk, List.length_replicate]
  omega

/-- Claim C10: the chat view's and the summary view's timestamp formatters are
extensionally equal, and for every non-negative number of seconds both produce
the minutes, a colon, and the seconds component zero-padded to exactly two
characters. -/
theorem formatTime_views_agree (q : ℚ) (hq : 0 ≤ q) :
    ChatInterface.formatTime q = SummaryView.formatTime q ∧
    ChatInterface.formatTime q =
      toString ⌊q / 60⌋ ++ ":" ++ padStart (toString ⌊jsMod q 60⌋) 2 '0' ∧
    (padStart (toString ⌊jsMod q 60⌋) 2 '0').length = 2 := by
  obtain ⟨h0, h60⟩ := seconds_component_bounds q hq
  exact ⟨rfl, rfl, padStart_two_length _ (toString_int_lt_sixty_length _ h0 h60)⟩

/-- Witness for C10 at 125 seconds. -/
theorem formatTime_views_agree_witness :
    ChatInterface.formatTime 125 = SummaryView.formatTime 125 ∧
    ChatInterface.formatTime 125 =
      toString ⌊(125:ℚ) / 60⌋ ++ ":" ++ padStart (toString ⌊jsMod 125 60⌋) 2 '0' ∧
    (padStart (toString ⌊jsMod 125 60⌋) 2 '0').length = 2 :=
  formatTime_views_agree 125 (by norm_num)

end YTBrain
